import Mathlib

/-!
Shallow embedding of the numeric and text analysis utilities of
`stock_tools.py` (the `FinancialCalculatorTool`, `NewsAnalysisTool` and
`RiskCalculatorTool` classes), together with theorems settling the frozen
claims about them.  Machine floats are modelled by exact rationals `ℚ`;
the one square root (realized volatility) is taken in `ℝ`.
-/

/- ------------------------------------------------------------------ -/
/- Sentiment scorer: `NewsAnalysisTool.analyze_sentiment`              -/
/- ------------------------------------------------------------------ -/

/-- Whether the pattern `w` occurs at the start of `s` (character lists). -/
def startsW : List Char → List Char → Bool
  | [], _ => true
  | _ :: _, [] => false
  | a :: w, b :: s => a == b && startsW w s

/-- Python substring membership `w in s` on character lists. -/
def hasSub (w : List Char) : List Char → Bool
  | [] => startsW w []
  | c :: s => startsW w (c :: s) || hasSub w s

/-- Helper for `pyTokens`: the Boolean records whether the previous
character was part of a token. -/
def tokCountAux : Bool → List Char → Nat
  | _, [] => 0
  | inWord, c :: s =>
    if c.isWhitespace then tokCountAux false s
    else (if inWord then 0 else 1) + tokCountAux true s

/-- Number of tokens produced by Python `text.split()` (split on runs of
whitespace, dropping empty tokens). -/
def pyTokens (l : List Char) : Nat := tokCountAux false l

/-- The fixed positive lexicon of `analyze_sentiment`. -/
def positive_words : List String :=
  ["good", "great", "excellent", "strong", "positive", "growth", "profit", "success"]

/-- The fixed negative lexicon of `analyze_sentiment`. -/
def negative_words : List String :=
  ["bad", "poor", "weak", "negative", "decline", "loss", "risk", "concern"]

/-- Result of `analyze_sentiment`.  The zero-token early return carries no
`positive_indicators`/`negative_indicators` keys, modelled by `none`. -/
structure SentimentResult where
  sentiment : String
  score : ℚ
  positive_indicators : Option Nat
  negative_indicators : Option Nat
  confidence : ℚ
deriving DecidableEq

/-- The positive hit count of `analyze_sentiment`:
`sum(1 for word in positive_words if word in text_lower)` counts each
lexicon word at most once, however often it occurs. -/
def positiveCount (text : String) : Nat :=
  (positive_words.filter fun w => hasSub w.data (text.data.map Char.toLower)).length

/-- The negative hit count of `analyze_sentiment`. -/
def negativeCount (text : String) : Nat :=
  (negative_words.filter fun w => hasSub w.data (text.data.map Char.toLower)).length

/-- `NewsAnalysisTool.analyze_sentiment`: lowercase the text, count the
lexicon words occurring as substrings, divide the count difference by the
token count of the original text. -/
def analyze_sentiment (text : String) : SentimentResult :=
  let positive_count := positiveCount text
  let negative_count := negativeCount text
  let total_words := pyTokens text.data
  if total_words = 0 then
    { sentiment := "neutral", score := 0, positive_indicators := none
      negative_indicators := none, confidence := 0 }
  else
    let sentiment_score : ℚ := ((positive_count : ℚ) - (negative_count : ℚ)) / (total_words : ℚ)
    { sentiment :=
        if 1/10 < sentiment_score then "positive"
        else if sentiment_score < -(1/10) then "negative"
        else "neutral"
      score := sentiment_score
      positive_indicators := some positive_count
      negative_indicators := some negative_count
      confidence := min (|sentiment_score| * 10) 1 }

/- ------------------------------------------------------------------ -/
/- Simulated news: `NewsAnalysisTool.get_recent_news`                  -/
/- ------------------------------------------------------------------ -/

/-- Result shape of `get_recent_news`. -/
structure NewsReport where
  symbol : String
  news_count : Nat
  sentiment_score : ℚ
  sentiment_label : String
  key_topics : List String
  recent_headlines : List String
  last_updated : String
deriving DecidableEq

/-- `NewsAnalysisTool.get_recent_news`.  The source calls
`datetime.now().isoformat()` for `last_updated`; the clock read is made an
explicit argument `now`. -/
def get_recent_news (symbol : String) (now : String) : NewsReport :=
  { symbol := symbol
    news_count := 5
    sentiment_score := 1/5
    sentiment_label := "Slightly Positive"
    key_topics := ["earnings", "product launch", "market expansion"]
    recent_headlines :=
      [symbol ++ " reports strong quarterly earnings",
       "Analysts upgrade " ++ symbol ++ " price target",
       symbol ++ " announces new product line",
       "Market volatility affects " ++ symbol ++ " trading",
       symbol ++ " CEO speaks at industry conference"]
    last_updated := now }

/- ------------------------------------------------------------------ -/
/- Risk rating: `RiskCalculatorTool.assess_portfolio_risk`             -/
/- ------------------------------------------------------------------ -/

/-- Result shape of `assess_portfolio_risk`. -/
structure RiskAssessment where
  overall_risk : String
  risk_factors : List String
  risk_score : ℚ
  recommendations : List String
deriving DecidableEq

/-- `RiskCalculatorTool.assess_portfolio_risk` on the three numeric signals
it reads from its input mapping (`volatility`, `beta`, `debt_to_equity`). -/
def assess_portfolio_risk (volatility beta debt_to_equity : ℚ) : RiskAssessment :=
  let score1 : ℚ := 5 + (if 3/10 < volatility then 1 else 0)
  let factors1 : List String := if 3/10 < volatility then ["High volatility"] else []
  let score2 : ℚ := score1 + (if 3/2 < beta then 1 else 0)
  let factors2 : List String :=
    factors1 ++
      (if 3/2 < beta then ["High market sensitivity"]
       else if beta < 1/2 then ["Low market correlation"] else [])
  let score3 : ℚ := score2 + (if 100 < debt_to_equity then 1 else 0)
  let factors3 : List String :=
    factors2 ++ (if 100 < debt_to_equity then ["High debt levels"] else [])
  let overall : String :=
    if score3 ≤ 3 then "Low" else if score3 ≤ 6 then "Medium" else "High"
  let recs : List String :=
    if overall = "High" then
      ["Consider position sizing carefully", "Implement stop-loss strategies"]
    else []
  { overall_risk := overall, risk_factors := factors3
    risk_score := score3, recommendations := recs }

/- ------------------------------------------------------------------ -/
/- Value at Risk: `RiskCalculatorTool.calculate_var`                   -/
/- ------------------------------------------------------------------ -/

/-- Python `int()` applied to a rational: truncation toward zero. -/
def pyTrunc (q : ℚ) : ℤ := if 0 ≤ q then ⌊q⌋ else -⌊-q⌋

/-- Python list indexing `l[i]`: negative indices address from the end,
out-of-range indices raise (modelled by `none`). -/
def pyGet (l : List ℚ) (i : ℤ) : Option ℚ :=
  if 0 ≤ i then l.get? i.toNat
  else if (-i).toNat ≤ l.length then l.get? (l.length - (-i).toNat)
  else none

/-- Python `min` over a list (the source only applies it to nonempty
lists; the empty case is an arbitrary default). -/
def pyMin (l : List ℚ) : ℚ :=
  match l with
  | [] => 0
  | h :: t => t.foldl min h

/-- Python `max` over a list (the source only applies it to nonempty
lists; the empty case is an arbitrary default). -/
def pyMax (l : List ℚ) : ℚ :=
  match l with
  | [] => 0
  | h :: t => t.foldl max h

/-- Successful result shape of `calculate_var`. -/
structure VarOk where
  var_95 : ℚ
  confidence_level : ℚ
  worst_case_scenario : ℚ
  best_case_scenario : ℚ
  average_return : ℚ
deriving DecidableEq

/-- `RiskCalculatorTool.calculate_var`: sort ascending, index at
`int((1 - confidence_level) * len)`, and report min, max and mean.  An
out-of-range index raises `IndexError`, caught as the error return. -/
def calculate_var (returns : List ℚ) (confidence_level : ℚ) : Except String VarOk :=
  if returns.length < 10 then .error "Insufficient return data for VaR calculation"
  else
    let returns_sorted := List.insertionSort (· ≤ ·) returns
    let var_index := pyTrunc ((1 - confidence_level) * (returns_sorted.length : ℚ))
    match pyGet returns_sorted var_index with
    | some var_value =>
      .ok { var_95 := var_value
            confidence_level := confidence_level
            worst_case_scenario := pyMin returns_sorted
            best_case_scenario := pyMax returns_sorted
            average_return := returns.sum / (returns.length : ℚ) }
    | none => .error "VaR calculation error"

/-- The sample return series used by the spec's VaR test property. -/
def varSample : List ℚ :=
  [-1/20, -3/100, -1/100, 0, 1/100, 1/50, 3/100, 1/25, 1/20, 3/50]

/- ------------------------------------------------------------------ -/
/- Ratios: `FinancialCalculatorTool.calculate_financial_ratios`        -/
/- ------------------------------------------------------------------ -/

/-- A loosely typed value extracted from the input mapping: the numeric
fields of the payload may, in a malformed payload, hold strings instead
of numbers (the `dict.get` defaults already applied by the caller). -/
inductive PVal where
  | num (q : ℚ)
  | str (s : String)
deriving DecidableEq

/-- The eight values `calculate_financial_ratios` extracts from its input
(each defaulted to `0` by `dict.get` when the key is absent). -/
structure FinData where
  total_revenue : PVal
  net_income : PVal
  gross_profit : PVal
  total_assets : PVal
  total_debt : PVal
  stockholder_equity : PVal
  market_cap : PVal
  current_price : PVal
deriving DecidableEq

/-- An all-numeric input to `calculate_financial_ratios`. -/
def numData (rev ni gp ta td eq mc cp : ℚ) : FinData :=
  ⟨.num rev, .num ni, .num gp, .num ta, .num td, .num eq, .num mc, .num cp⟩

/-- The insertion-ordered dictionary of computed ratios. -/
abbrev RatioDict := List (String × ℚ)

/-- Python `v > 0` on a loose value: a `TypeError` is raised (modelled by
`Except.error`) when the value is not numeric. -/
def pvGt0 : PVal → Except Unit Bool
  | .num q => .ok (decide (0 < q))
  | .str _ => .error ()

/-- Python `a / b` on loose values: raises on non-numeric operands and on
division by zero. -/
def pvDiv : PVal → PVal → Except Unit ℚ
  | .num a, .num b => if b = 0 then .error () else .ok (a / b)
  | _, _ => .error ()

/-- Turns a possibly raising primitive into the ratio computation monad,
whose error carries the dictionary built before the raise. -/
def orFail (r : RatioDict) : Except Unit α → Except RatioDict α
  | .ok a => .ok a
  | .error _ => .error r

/-- The body of the `try` block of `calculate_financial_ratios`, step by
step in source order; a raise aborts with the dictionary built so far. -/
def ratiosGo (d : FinData) : Except RatioDict RatioDict := do
  let r : RatioDict := []
  let bRev ← orFail r (pvGt0 d.total_revenue)
  let r ←
    if bRev then do
      let g ← orFail r (pvDiv d.gross_profit d.total_revenue)
      let r := r ++ [("gross_margin", g * 100)]
      let m ← orFail r (pvDiv d.net_income d.total_revenue)
      pure (r ++ [("net_margin", m * 100)])
    else pure r
  let bAst ← orFail r (pvGt0 d.total_assets)
  let r ←
    if bAst then do
      let q ← orFail r (pvDiv d.net_income d.total_assets)
      pure (r ++ [("roa", q * 100)])
    else pure r
  let bEq ← orFail r (pvGt0 d.stockholder_equity)
  let r ←
    if bEq then do
      let q ← orFail r (pvDiv d.net_income d.stockholder_equity)
      pure (r ++ [("roe", q * 100)])
    else pure r
  let bAst2 ← orFail r (pvGt0 d.total_assets)
  let r ←
    if bAst2 then do
      let q ← orFail r (pvDiv d.total_debt d.total_assets)
      pure (r ++ [("debt_to_assets", q * 100)])
    else pure r
  let bEq2 ← orFail r (pvGt0 d.stockholder_equity)
  let r ←
    if bEq2 then do
      let q ← orFail r (pvDiv d.total_debt d.stockholder_equity)
      pure (r ++ [("debt_to_equity", q * 100)])
    else pure r
  let bNi ← orFail r (pvGt0 d.net_income)
  let r ←
    if bNi then do
      let bMc ← orFail r (pvGt0 d.market_cap)
      if bMc then do
        let q ← orFail r (pvDiv d.market_cap d.net_income)
        pure (r ++ [("pe_ratio", q)])
      else pure r
    else pure r
  let bRev2 ← orFail r (pvGt0 d.total_revenue)
  let r ←
    if bRev2 then do
      let bMc ← orFail r (pvGt0 d.market_cap)
      if bMc then do
        let q ← orFail r (pvDiv d.market_cap d.total_revenue)
        pure (r ++ [("price_to_sales", q)])
      else pure r
    else pure r
  let bEq3 ← orFail r (pvGt0 d.stockholder_equity)
  let r ←
    if bEq3 then do
      let bMc ← orFail r (pvGt0 d.market_cap)
      if bMc then do
        let q ← orFail r (pvDiv d.market_cap d.stockholder_equity)
        pure (r ++ [("price_to_book", q)])
      else pure r
    else pure r
  pure r

/-- `FinancialCalculatorTool.calculate_financial_ratios`: the dictionary
of ratios, together with the `error` entry appended by the `except`
handler when a step raised (`ratios["error"] = ...` on the dictionary
mutated so far). -/
def calculate_financial_ratios (d : FinData) : RatioDict × Option String :=
  match ratiosGo d with
  | .ok r => (r, none)
  | .error r => (r, some "Calculation error")

/- ------------------------------------------------------------------ -/
/- Technical indicators:                                               -/
/- `FinancialCalculatorTool.calculate_technical_indicators`            -/
/- ------------------------------------------------------------------ -/

/-- The one-period simple returns `price[i] / price[i-1] - 1` of a price
series, one per consecutive pair. -/
def returnsOf (l : List ℚ) : List ℚ :=
  (l.zip l.tail).map fun p => p.2 / p.1 - 1

/-- The population variance expression of the source:
`sum((r - sum(returns)/len(returns))**2 for r in returns) / len(returns)`. -/
def popVar (rs : List ℚ) : ℚ :=
  ((rs.map fun r => (r - rs.sum / (rs.length : ℚ)) ^ 2).sum) / (rs.length : ℚ)

/-- Successful result shape of `calculate_technical_indicators`; each
indicator is present only when its length precondition holds. -/
structure TechIndicators where
  sma_20 : Option ℚ
  sma_50 : Option ℚ
  momentum_10 : Option ℚ
  volatility_20d : Option ℝ
  support_level : Option ℚ
  resistance_level : Option ℚ

/-- `FinancialCalculatorTool.calculate_technical_indicators`.  The two
possible `ZeroDivisionError` raise sites of the `try` block — the momentum
divisor `price_data[-10]` and the return divisors `price_data[i-1]`
(every price except the last) — are checked in evaluation order; a raise
discards all indicators and yields the error return. -/
noncomputable def calculate_technical_indicators (price_data : List ℚ) :
    Except String TechIndicators :=
  if price_data.length < 2 then .error "Insufficient price data"
  else if 10 ≤ price_data.length ∧ price_data.getD (price_data.length - 10) 0 = 0 then
    .error "Technical indicator calculation error"
  else if 20 ≤ price_data.length ∧ ¬ (∀ x ∈ price_data.dropLast, x ≠ 0) then
    .error "Technical indicator calculation error"
  else
    .ok
      { sma_20 :=
          if 20 ≤ price_data.length then
            some ((price_data.drop (price_data.length - 20)).sum / 20)
          else none
        sma_50 :=
          if 50 ≤ price_data.length then
            some ((price_data.drop (price_data.length - 50)).sum / 50)
          else none
        momentum_10 :=
          if 10 ≤ price_data.length then
            some ((price_data.getLastD 0 / price_data.getD (price_data.length - 10) 0 - 1)
              * 100)
          else none
        volatility_20d :=
          if 20 ≤ price_data.length then
            some ((100 : ℝ) * Real.sqrt ((popVar (returnsOf price_data) : ℚ) : ℝ))
          else none
        support_level :=
          if 20 ≤ price_data.length then
            some (pyMin (price_data.drop (price_data.length - 20)))
          else none
        resistance_level :=
          if 20 ≤ price_data.length then
            some (pyMax (price_data.drop (price_data.length - 20)))
          else none }

/-- Modelled from the spec: "20-period realized volatility = population
standard deviation of simple one-period returns over the trailing 20
samples, expressed as a percentage".  The returns here come from the
trailing 20 samples only. -/
noncomputable def specVolatilityTrailing20 (l : List ℚ) : ℝ :=
  100 * Real.sqrt ((popVar (returnsOf (l.drop (l.length - 20))) : ℚ) : ℝ)

/-- Population standard deviation of a rational series, written directly
over the reals (square root of the mean squared deviation from the mean). -/
noncomputable def popStdR (rs : List ℚ) : ℝ :=
  Real.sqrt
    (((rs.map fun (r : ℚ) =>
        ((r : ℝ) - (rs.map (Rat.cast : ℚ → ℝ)).sum / (rs.length : ℝ)) ^ 2).sum) /
      (rs.length : ℝ))

/-- The price series used by the counterexample to claim C1: one sample of
price 1 followed by twenty samples of price 2. -/
def c1Prices : List ℚ :=
  [1, 2, 2, 2, 2, 2, 2, 2, 2, 2, 2, 2, 2, 2, 2, 2, 2, 2, 2, 2, 2]

/-- The price series used by the counterexample to claim C6: twenty
monotonically increasing prices starting at 0. -/
def c6Prices : List ℚ :=
  [0, 1, 2, 3, 4, 5, 6, 7, 8, 9, 10, 11, 12, 13, 14, 15, 16, 17, 18, 19]

/-- A sample input to `calculate_financial_ratios` whose `total_assets`
field holds a string: the comparison `total_assets > 0` raises after the
two margin ratios were already inserted. -/
def c7Data : FinData :=
  ⟨.num 10, .num 2, .num 5, .str "NA", .num 0, .num 0, .num 0, .num 0⟩

/- ================================================================== -/
/- Helper lemmas                                                       -/
/- ================================================================== -/

/- ================================================================== -/
/- Claim theorems                                                      -/
/- ================================================================== -/

/-- Claim C8: for every text whose token count is zero (in particular the
empty string), the sentiment scorer short-circuits to label "neutral",
score 0.0, confidence 0.0; the short-circuit return is taken before the
division by the token count, so no indicator counts are reported. -/
theorem claim_C8 (text : String) (h : pyTokens text.data = 0) :
    analyze_sentiment text =
      { sentiment := "neutral", score := 0, positive_indicators := none
        negative_indicators := none, confidence := 0 } := by
  simp [analyze_sentiment, h]

/-- Witness for C8 at the empty string. -/
theorem claim_C8_witness :
    pyTokens "".data = 0 ∧
      analyze_sentiment "" =
        { sentiment := "neutral", score := 0, positive_indicators := none
          negative_indicators := none, confidence := 0 } :=
  ⟨by decide, claim_C8 "" (by decide)⟩

/-- Claim C4 as stated is false: on "great growth, strong profit" the
scorer reports 4 positive hits and the text has 4 tokens, not 3 of each
as the claim asserts. -/
theorem claim_C4_counterexample :
    (analyze_sentiment "great growth, strong profit").positive_indicators = some 4 ∧
      pyTokens "great growth, strong profit".data = 4 ∧ (4 : Nat) ≠ 3 := by
  refine ⟨by decide, by decide, by decide⟩

/-- Claim C4 amended: each lexicon word is counted at most once when it
occurs as a substring of the lowercased text (not once per occurrence);
on "great growth, strong profit" this gives 4 positive hits, 0 negative
hits, 4 tokens, score 1.0, label "positive" and clipped confidence 1.0,
and on "good good good" a single positive hit despite three occurrences. -/
theorem claim_C4_amended :
    positiveCount "great growth, strong profit" = 4 ∧
    negativeCount "great growth, strong profit" = 0 ∧
    pyTokens "great growth, strong profit".data = 4 ∧
    analyze_sentiment "great growth, strong profit" =
      { sentiment := "positive", score := 1, positive_indicators := some 4
        negative_indicators := some 0, confidence := 1 } ∧
    positiveCount "good good good" = 1 := by
  have hp : positiveCount "great growth, strong profit" = 4 := by decide
  have hn : negativeCount "great growth, strong profit" = 0 := by decide
  have ht : pyTokens "great growth, strong profit".data = 4 := by decide
  refine ⟨hp, hn, ht, ?_, by decide⟩
  simp only [analyze_sentiment, hp, hn, ht]
  norm_num [min_def]

/-- Claim C10: the base risk score is 5.0 and the heuristics only add to
it, so `assess_portfolio_risk` always reports score at least 5 and an
overall risk label of "Medium" or "High", never "Low". -/
theorem claim_C10 : ∀ v b d : ℚ,
    5 ≤ (assess_portfolio_risk v b d).risk_score ∧
    (assess_portfolio_risk v b d).overall_risk ≠ "Low" ∧
    ((assess_portfolio_risk v b d).overall_risk = "Medium" ∨
      (assess_portfolio_risk v b d).overall_risk = "High") := by
  intro v b d
  simp only [assess_portfolio_risk]
  split_ifs <;> try norm_num at *
  all_goals simp_all

/-- Claim C5: `assess_portfolio_risk` starts from base score 5, adds one
point for each of volatility > 0.3, beta > 1.5 and debt/equity > 100
(recording "Low market correlation" with no score change when beta < 0.5),
accumulates the factors in the fixed order volatility → beta → debt, maps
the score by ≤3 → Low, ≤6 → Medium, otherwise High, appends the two fixed
recommendations exactly when the label is High, and on volatility = 0.35,
beta = 1.6, debt/equity = 120 yields score 8 = base + 3 and label "High"
with both recommendations. -/
theorem claim_C5 :
    (∀ v b d : ℚ,
      (assess_portfolio_risk v b d).risk_score =
          5 + (if 3/10 < v then 1 else 0) + (if 3/2 < b then 1 else 0)
            + (if 100 < d then 1 else 0) ∧
      (assess_portfolio_risk v b d).risk_factors =
          (if 3/10 < v then ["High volatility"] else []) ++
          ((if 3/2 < b then ["High market sensitivity"]
            else if b < 1/2 then ["Low market correlation"] else []) ++
           (if 100 < d then ["High debt levels"] else [])) ∧
      (assess_portfolio_risk v b d).overall_risk =
          (if (assess_portfolio_risk v b d).risk_score ≤ 3 then "Low"
           else if (assess_portfolio_risk v b d).risk_score ≤ 6 then "Medium"
           else "High") ∧
      (assess_portfolio_risk v b d).recommendations =
          (if 6 < (assess_portfolio_risk v b d).risk_score then
            ["Consider position sizing carefully", "Implement stop-loss strategies"]
           else [])) ∧
    assess_portfolio_risk (7/20) (8/5) 120 =
      { overall_risk := "High"
        risk_factors := ["High volatility", "High market sensitivity", "High debt levels"]
        risk_score := 8
        recommendations :=
          ["Consider position sizing carefully", "Implement stop-loss strategies"] } := by
  constructor
  · intro v b d
    simp only [assess_portfolio_risk, List.append_assoc]
    split_ifs <;> try norm_num at *
    all_goals simp_all
  · norm_num [assess_portfolio_risk]

/-- Claim C9 as stated is false: `get_recent_news` embeds the current
clock reading in its `last_updated` field, so two calls with the same
symbol at different times are not bit-identical. -/
theorem claim_C9_counterexample :
    get_recent_news "AAPL" "2024-01-01T00:00:00" ≠
      get_recent_news "AAPL" "2024-01-01T00:00:01" := fun h => by
  have h2 : ("2024-01-01T00:00:00" : String) = "2024-01-01T00:00:01" :=
    congrArg NewsReport.last_updated h
  exact absurd h2 (by decide)

/-- Claim C9 amended: every analysis function is a deterministic function
of its explicit arguments; `get_recent_news` additionally depends on the
clock: two calls agree on every field except `last_updated`, and are
bit-identical exactly when the clock readings coincide. -/
theorem claim_C9_amended :
    (∀ t, analyze_sentiment t = analyze_sentiment t) ∧
    (∀ v b d : ℚ, assess_portfolio_risk v b d = assess_portfolio_risk v b d) ∧
    (∀ (l : List ℚ) (c : ℚ), calculate_var l c = calculate_var l c) ∧
    (∀ fd, calculate_financial_ratios fd = calculate_financial_ratios fd) ∧
    (∀ l : List ℚ, calculate_technical_indicators l = calculate_technical_indicators l) ∧
    (∀ s t₁ t₂ : String,
      (get_recent_news s t₁).symbol = (get_recent_news s t₂).symbol ∧
      (get_recent_news s t₁).news_count = (get_recent_news s t₂).news_count ∧
      (get_recent_news s t₁).sentiment_score = (get_recent_news s t₂).sentiment_score ∧
      (get_recent_news s t₁).sentiment_label = (get_recent_news s t₂).sentiment_label ∧
      (get_recent_news s t₁).key_topics = (get_recent_news s t₂).key_topics ∧
      (get_recent_news s t₁).recent_headlines = (get_recent_news s t₂).recent_headlines ∧
      (get_recent_news s t₁ = get_recent_news s t₂ ↔ t₁ = t₂)) :=
  ⟨fun _ => rfl, fun _ _ _ => rfl, fun _ _ => rfl, fun _ => rfl, fun _ => rfl,
    fun s t₁ t₂ =>
      ⟨rfl, rfl, rfl, rfl, rfl, rfl,
        ⟨fun h => congrArg NewsReport.last_updated h, fun h => by rw [h]⟩⟩⟩

theorem foldl_min_le_init (t : List ℚ) (a : ℚ) : t.foldl min a ≤ a := by
  induction t generalizing a with
  | nil => exact le_refl a
  | cons b t ih => exact le_trans (ih (min a b)) (min_le_left a b)

theorem foldl_min_le_mem (t : List ℚ) (x : ℚ) (hx : x ∈ t) (a : ℚ) : t.foldl min a ≤ x := by
  induction t generalizing a with
  | nil => cases hx
  | cons b t ih =>
    rcases List.mem_cons.mp hx with rfl | hx'
    · exact le_trans (foldl_min_le_init t (min a x)) (min_le_right a x)
    · exact ih hx' (min a b)

theorem foldl_min_mem (t : List ℚ) (a : ℚ) : t.foldl min a = a ∨ t.foldl min a ∈ t := by
  induction t generalizing a with
  | nil => exact Or.inl rfl
  | cons b t ih =>
    have hstep : List.foldl min a (b :: t) = List.foldl min (min a b) t := rfl
    rcases ih (min a b) with h | h
    · rcases min_choice a b with h2 | h2
      · exact Or.inl (by rw [hstep, h, h2])
      · exact Or.inr (List.mem_cons.mpr (Or.inl (by rw [hstep, h, h2])))
    · exact Or.inr (List.mem_cons_of_mem b h)

theorem foldl_max_init_le (t : List ℚ) (a : ℚ) : a ≤ t.foldl max a := by
  induction t generalizing a with
  | nil => exact le_refl a
  | cons b t ih => exact le_trans (le_max_left a b) (ih (max a b))

theorem foldl_max_mem_le (t : List ℚ) (x : ℚ) (hx : x ∈ t) (a : ℚ) : x ≤ t.foldl max a := by
  induction t generalizing a with
  | nil => cases hx
  | cons b t ih =>
    rcases List.mem_cons.mp hx with rfl | hx'
    · exact le_trans (le_max_right a x) (foldl_max_init_le t (max a x))
    · exact ih hx' (max a b)

theorem foldl_max_mem (t : List ℚ) (a : ℚ) : t.foldl max a = a ∨ t.foldl max a ∈ t := by
  induction t generalizing a with
  | nil => exact Or.inl rfl
  | cons b t ih =>
    have hstep : List.foldl max a (b :: t) = List.foldl max (max a b) t := rfl
    rcases ih (max a b) with h | h
    · rcases max_choice a b with h2 | h2
      · exact Or.inl (by rw [hstep, h, h2])
      · exact Or.inr (List.mem_cons.mpr (Or.inl (by rw [hstep, h, h2])))
    · exact Or.inr (List.mem_cons_of_mem b h)

theorem pyMin_mem (l : List ℚ) (h : l ≠ []) : pyMin l ∈ l := by
  match l with
  | [] => exact absurd rfl h
  | a :: t =>
    have hstep : pyMin (a :: t) = List.foldl min a t := rfl
    rcases foldl_min_mem t a with h2 | h2
    · rw [hstep, h2]; exact List.mem_cons_self a t
    · rw [hstep]; exact List.mem_cons_of_mem a h2

theorem pyMin_le (l : List ℚ) (x : ℚ) (hx : x ∈ l) : pyMin l ≤ x := by
  match l with
  | a :: t =>
    rcases List.mem_cons.mp hx with rfl | hx'
    · exact foldl_min_le_init t x
    · exact foldl_min_le_mem t x hx' a

theorem pyMax_mem (l : List ℚ) (h : l ≠ []) : pyMax l ∈ l := by
  match l with
  | [] => exact absurd rfl h
  | a :: t =>
    have hstep : pyMax (a :: t) = List.foldl max a t := rfl
    rcases foldl_max_mem t a with h2 | h2
    · rw [hstep, h2]; exact List.mem_cons_self a t
    · rw [hstep]; exact List.mem_cons_of_mem a h2

theorem le_pyMax (l : List ℚ) (x : ℚ) (hx : x ∈ l) : x ≤ pyMax l := by
  match l with
  | a :: t =>
    rcases List.mem_cons.mp hx with rfl | hx'
    · exact foldl_max_init_le t x
    · exact foldl_max_mem_le t x hx' a

theorem pyGet_nonneg (l : List ℚ) (i : ℤ) (h0 : 0 ≤ i) (hlt : i.toNat < l.length) :
    pyGet l i = some (l.getD i.toNat 0) := by
  unfold pyGet
  rw [if_pos h0, List.get?_eq_getElem?, List.getElem?_eq_getElem hlt,
    List.getD_eq_getElem?_getD, List.getElem?_eq_getElem hlt]
  rfl

example : ⌊(1:ℚ)/2⌋ = 0 := by norm_num

theorem calculate_var_eq (l : List ℚ) (c : ℚ) (hn : ¬ l.length < 10)
    (h0 : 0 ≤ pyTrunc ((1 - c) * (l.length : ℚ)))
    (hlt : (pyTrunc ((1 - c) * (l.length : ℚ))).toNat < l.length) :
    calculate_var l c = .ok
      { var_95 :=
          (List.insertionSort (· ≤ ·) l).getD (pyTrunc ((1 - c) * (l.length : ℚ))).toNat 0
        confidence_level := c
        worst_case_scenario := pyMin (List.insertionSort (· ≤ ·) l)
        best_case_scenario := pyMax (List.insertionSort (· ≤ ·) l)
        average_return := l.sum / (l.length : ℚ) } := by
  have hlen : (List.insertionSort (· ≤ ·) l).length = l.length :=
    (List.perm_insertionSort _ l).length_eq
  unfold calculate_var
  rw [if_neg hn]
  simp only [hlen]
  rw [pyGet_nonneg _ _ h0 (by rw [hlen]; exact hlt)]

/-- Claim C2: `calculate_var` on fewer than 10 returns yields an error;
otherwise it sorts the returns ascending, reports as VaR the element at
index floor((1 - confidence) * count) of the sorted list, and also reports
the minimum, maximum and arithmetic mean of the full return list; on the
sample series with confidence 0.95 the VaR is the sorted element at
index 0, i.e. -0.05. -/
theorem claim_C2 :
    (∀ (l : List ℚ) (c : ℚ), l.length < 10 →
        calculate_var l c = .error "Insufficient return data for VaR calculation") ∧
    (∀ (l : List ℚ) (c : ℚ), 10 ≤ l.length → 0 < c → c < 1 →
      ∃ vo, calculate_var l c = .ok vo ∧
        (∀ s : List ℚ, l.Perm s → s.Sorted (· ≤ ·) →
            vo.var_95 = s.getD (⌊(1 - c) * (l.length : ℚ)⌋).toNat 0) ∧
        vo.confidence_level = c ∧
        vo.worst_case_scenario ∈ l ∧ (∀ x ∈ l, vo.worst_case_scenario ≤ x) ∧
        vo.best_case_scenario ∈ l ∧ (∀ x ∈ l, x ≤ vo.best_case_scenario) ∧
        vo.average_return = l.sum / (l.length : ℚ)) ∧
    calculate_var varSample (19/20) =
      .ok { var_95 := -1/20, confidence_level := 19/20, worst_case_scenario := -1/20
            best_case_scenario := 3/50, average_return := 3/250 } := by
  refine ⟨?_, ?_, ?_⟩
  · intro l c h
    unfold calculate_var
    rw [if_pos h]
  · intro l c h10 hc0 hc1
    have hq : (0:ℚ) ≤ (1 - c) * (l.length : ℚ) :=
      mul_nonneg (by linarith) (by positivity)
    have htr : pyTrunc ((1 - c) * (l.length : ℚ)) = ⌊(1 - c) * (l.length : ℚ)⌋ := by
      unfold pyTrunc; rw [if_pos hq]
    have h0f : (0:ℤ) ≤ ⌊(1 - c) * (l.length : ℚ)⌋ := Int.floor_nonneg.mpr hq
    have hnq : (0:ℚ) < (l.length : ℚ) := by
      have : 0 < l.length := by omega
      exact_mod_cast this
    have hflt : ⌊(1 - c) * (l.length : ℚ)⌋ < (l.length : ℤ) := by
      rw [Int.floor_lt]
      push_cast
      nlinarith
    have htn : (⌊(1 - c) * (l.length : ℚ)⌋).toNat < l.length := by
      exact_mod_cast (Int.toNat_lt h0f).mpr hflt
    have hperm : (List.insertionSort (· ≤ ·) l).Perm l := List.perm_insertionSort _ l
    have hne : ¬ l.length < 10 := by omega
    have hnil : List.insertionSort (· ≤ ·) l ≠ [] := by
      intro hcon
      have := hperm.length_eq
      rw [hcon] at this
      simp at this
      omega
    rw [calculate_var_eq l c hne (htr ▸ h0f) (by rw [htr]; exact htn)]
    refine ⟨_, rfl, ?_, rfl, ?_, ?_, ?_, ?_, rfl⟩
    · intro s hps hss
      have hs_eq : s = List.insertionSort (· ≤ ·) l :=
        List.eq_of_perm_of_sorted (hps.symm.trans hperm.symm) hss
          (List.sorted_insertionSort _ l)
      rw [hs_eq, htr]
    · exact hperm.mem_iff.mp (pyMin_mem _ hnil)
    · intro x hx
      exact pyMin_le _ x (hperm.mem_iff.mpr hx)
    · exact hperm.mem_iff.mp (pyMax_mem _ hnil)
    · intro x hx
      exact le_pyMax _ x (hperm.mem_iff.mpr hx)
  · norm_num [calculate_var, varSample, List.insertionSort, List.orderedInsert,
      pyGet, pyTrunc, pyMin, pyMax, List.foldl, min_def, max_def]

/-- Witness for C2 at the sample return series with confidence 0.95. -/
theorem claim_C2_witness :
    ((10:Nat) ≤ varSample.length ∧ (0:ℚ) < 19/20 ∧ (19:ℚ)/20 < 1) ∧
    ∃ vo, calculate_var varSample (19/20) = .ok vo ∧
      vo.average_return = varSample.sum / (varSample.length : ℚ) := by
  obtain ⟨vo, h1, _, _, _, _, _, _, h8⟩ :=
    claim_C2.2.1 varSample (19/20) (by decide) (by norm_num) (by norm_num)
  exact ⟨⟨by decide, by norm_num, by norm_num⟩, vo, h1, h8⟩

example :
    calculate_financial_ratios (numData 10 2 5 0 0 0 0 0) =
      ([("gross_margin", 50), ("net_margin", 20)], none) := by
  norm_num [calculate_financial_ratios, ratiosGo, numData, pvGt0, pvDiv, orFail,
    Except.instMonad, Except.bind, Except.pure]

example :
    calculate_financial_ratios c7Data =
      ([("gross_margin", 50), ("net_margin", 20)], some "Calculation error") := by
  norm_num [calculate_financial_ratios, ratiosGo, c7Data, pvGt0, pvDiv, orFail,
    Except.instMonad, Except.bind, Except.pure]

theorem lookup_ite_single (k k' : String) (c : Prop) [Decidable c] (v : ℚ) :
    (if c then [(k', v)] else []).lookup k =
      if k = k' then (if c then some v else none) else none := by
  rcases Decidable.em c with h | h
  · rcases Decidable.em (k = k') with h2 | h2
    · subst h2; simp [List.lookup, h]
    · have h2' : (k == k') = false := beq_eq_false_iff_ne.mpr h2
      simp [List.lookup, h, h2, h2']
  · rcases Decidable.em (k = k') with h2 | h2
    · subst h2; simp [List.lookup, h]
    · simp [List.lookup, h, h2]

theorem lookup_ite_pair (k k1 k2 : String) (hk : k1 ≠ k2) (c : Prop) [Decidable c]
    (v1 v2 : ℚ) :
    (if c then [(k1, v1), (k2, v2)] else []).lookup k =
      if k = k1 then (if c then some v1 else none)
      else if k = k2 then (if c then some v2 else none) else none := by
  rcases Decidable.em c with h | h
  · rcases Decidable.em (k = k1) with h1 | h1
    · subst h1
      have h2' : (k == k2) = false := beq_eq_false_iff_ne.mpr hk
      simp [List.lookup, h, h2']
    · have h1' : (k == k1) = false := beq_eq_false_iff_ne.mpr h1
      rcases Decidable.em (k = k2) with h2 | h2
      · subst h2
        simp [List.lookup, h, h1, h1']
      · have h2' : (k == k2) = false := beq_eq_false_iff_ne.mpr h2
        simp [List.lookup, h, h1, h2, h1', h2']
  · rcases Decidable.em (k = k1) with h1 | h1
    · subst h1; simp [List.lookup, h]
    · rcases Decidable.em (k = k2) with h2 | h2
      · subst h2; simp [List.lookup, h, h1]
      · simp [List.lookup, h, h1, h2]

theorem pvDiv_num_pos (a b : ℚ) (h : 0 < b) : pvDiv (.num a) (.num b) = .ok (a / b) := by
  simp [pvDiv, h.ne']

set_option maxHeartbeats 1000000 in
theorem ratios_num_eq (rev ni gp ta td eq mc cp : ℚ) :
    calculate_financial_ratios (numData rev ni gp ta td eq mc cp) =
      ((if 0 < rev then [("gross_margin", gp/rev*100), ("net_margin", ni/rev*100)] else []) ++
       (if 0 < ta then [("roa", ni/ta*100)] else []) ++
       (if 0 < eq then [("roe", ni/eq*100)] else []) ++
       (if 0 < ta then [("debt_to_assets", td/ta*100)] else []) ++
       (if 0 < eq then [("debt_to_equity", td/eq*100)] else []) ++
       (if 0 < ni ∧ 0 < mc then [("pe_ratio", mc/ni)] else []) ++
       (if 0 < rev ∧ 0 < mc then [("price_to_sales", mc/rev)] else []) ++
       (if 0 < eq ∧ 0 < mc then [("price_to_book", mc/eq)] else []), none) := by
  rcases Decidable.em (0 < rev) with hr | hr <;>
    rcases Decidable.em (0 < ta) with ha | ha <;>
      rcases Decidable.em (0 < eq) with he | he <;>
        rcases Decidable.em (0 < ni) with hn | hn <;>
          rcases Decidable.em (0 < mc) with hm | hm <;>
            simp [calculate_financial_ratios, ratiosGo, numData, pvGt0, pvDiv_num_pos,
              orFail, Except.instMonad, Except.bind, Except.pure, decide_eq_true_eq,
              hr, ha, he, hn, hm]

/-- Claim C3: `calculate_financial_ratios` includes a ratio entry exactly
when its divisor (and, for the valuation ratios, market cap) is strictly
positive; with revenue ≤ 0 both margins are omitted, and with revenue > 0
and gross profit equal to revenue the gross margin is exactly 100.0. -/
theorem claim_C3 :
    ∀ rev ni gp ta td eq mc cp : ℚ,
      (rev ≤ 0 →
        (calculate_financial_ratios (numData rev ni gp ta td eq mc cp)).1.lookup
            "gross_margin" = none ∧
        (calculate_financial_ratios (numData rev ni gp ta td eq mc cp)).1.lookup
            "net_margin" = none) ∧
      (0 < rev → gp = rev →
        (calculate_financial_ratios (numData rev ni gp ta td eq mc cp)).1.lookup
            "gross_margin" = some 100) ∧
      ((calculate_financial_ratios (numData rev ni gp ta td eq mc cp)).1.lookup
          "gross_margin" ≠ none ↔ 0 < rev) ∧
      ((calculate_financial_ratios (numData rev ni gp ta td eq mc cp)).1.lookup
          "net_margin" ≠ none ↔ 0 < rev) ∧
      ((calculate_financial_ratios (numData rev ni gp ta td eq mc cp)).1.lookup
          "roa" ≠ none ↔ 0 < ta) ∧
      ((calculate_financial_ratios (numData rev ni gp ta td eq mc cp)).1.lookup
          "roe" ≠ none ↔ 0 < eq) ∧
      ((calculate_financial_ratios (numData rev ni gp ta td eq mc cp)).1.lookup
          "debt_to_assets" ≠ none ↔ 0 < ta) ∧
      ((calculate_financial_ratios (numData rev ni gp ta td eq mc cp)).1.lookup
          "debt_to_equity" ≠ none ↔ 0 < eq) ∧
      ((calculate_financial_ratios (numData rev ni gp ta td eq mc cp)).1.lookup
          "pe_ratio" ≠ none ↔ (0 < ni ∧ 0 < mc)) ∧
      ((calculate_financial_ratios (numData rev ni gp ta td eq mc cp)).1.lookup
          "price_to_sales" ≠ none ↔ (0 < rev ∧ 0 < mc)) ∧
      ((calculate_financial_ratios (numData rev ni gp ta td eq mc cp)).1.lookup
          "price_to_book" ≠ none ↔ (0 < eq ∧ 0 < mc)) ∧
      (calculate_financial_ratios (numData rev ni gp ta td eq mc cp)).2 = none := by
  intro rev ni gp ta td eq mc cp
  have hnf := ratios_num_eq rev ni gp ta td eq mc cp
  refine ⟨?_, ?_, ?_, ?_, ?_, ?_, ?_, ?_, ?_, ?_, ?_, ?_⟩
  · intro h
    have h' : ¬ 0 < rev := by linarith
    constructor <;>
      simp [hnf, List.lookup_append, lookup_ite_pair, lookup_ite_single,
        Option.or_none, Option.none_or, h'] <;>
      split_ifs <;> simp_all
  · intro h1 h2
    subst h2
    have hne := ne_of_gt h1
    simp [hnf, List.lookup_append, lookup_ite_pair, lookup_ite_single,
      Option.or_none, Option.none_or, h1, div_self hne]
  all_goals
    simp [hnf, List.lookup_append, lookup_ite_pair, lookup_ite_single,
      Option.or_none, Option.none_or] <;>
    split_ifs <;> simp_all

/-- Witness for C3 at revenue 5 with gross profit 5. -/
theorem claim_C3_witness :
    ((0:ℚ) < 5 ∧ (5:ℚ) = 5) ∧
    (calculate_financial_ratios (numData 5 2 5 0 1 4 10 0)).1.lookup
        "gross_margin" = some 100 :=
  ⟨⟨by norm_num, rfl⟩,
    (claim_C3 5 2 5 0 1 4 10 0).2.1 (by norm_num) rfl⟩

/-- Claim C7 as stated is false: on an input with positive revenue whose
`total_assets` field is a string, the comparison `total_assets > 0` raises
after both margins were inserted, and the returned mapping carries those
partial ratios alongside the error entry. -/
theorem claim_C7_counterexample :
    calculate_financial_ratios c7Data =
      ([("gross_margin", 50), ("net_margin", 20)], some "Calculation error") ∧
    (calculate_financial_ratios c7Data).1 ≠ [] := by
  have h : calculate_financial_ratios c7Data =
      ([("gross_margin", 50), ("net_margin", 20)], some "Calculation error") := by
    norm_num [calculate_financial_ratios, ratiosGo, c7Data, pvGt0, pvDiv, orFail,
      Except.instMonad, Except.bind, Except.pure]
  exact ⟨h, by rw [h]; simp⟩

/-- Claim C7 amended: an internal arithmetic error yields an error entry
together with the ratios computed before the failing step (the partial
ratios are retained, not discarded): with positive numeric revenue and a
non-numeric `total_assets`, both margins appear alongside the error. -/
theorem claim_C7_amended (rev ni gp : ℚ) (s : String) (td eq mc cp : PVal)
    (h : 0 < rev) :
    calculate_financial_ratios ⟨.num rev, .num ni, .num gp, .str s, td, eq, mc, cp⟩ =
      ([("gross_margin", gp/rev*100), ("net_margin", ni/rev*100)],
        some "Calculation error") := by
  simp [calculate_financial_ratios, ratiosGo, pvGt0, pvDiv_num_pos, orFail,
    Except.instMonad, Except.bind, Except.pure, decide_eq_true_eq, h]

/-- Witness for the amended C7 at revenue 10 with a string asset field. -/
theorem claim_C7_amended_witness :
    (0:ℚ) < 10 ∧
    calculate_financial_ratios
        ⟨.num 10, .num 2, .num 5, .str "NA", .num 0, .num 0, .num 0, .num 0⟩ =
      ([("gross_margin", 5/10*100), ("net_margin", 2/10*100)],
        some "Calculation error") :=
  ⟨by norm_num, claim_C7_amended 10 2 5 "NA" _ _ _ _ (by norm_num)⟩

theorem foldl_min_all_ge (t : List ℚ) (a : ℚ) (h : ∀ x ∈ t, a ≤ x) :
    t.foldl min a = a := by
  induction t generalizing a with
  | nil => rfl
  | cons b t ih =>
    have hab : min a b = a := min_eq_left (h b (List.mem_cons_self b t))
    have hstep : List.foldl min a (b :: t) = List.foldl min (min a b) t := rfl
    rw [hstep, hab]
    exact ih a fun x hx => h x (List.mem_cons_of_mem b hx)

theorem pyMin_sorted (l : List ℚ) (h : List.Pairwise (· ≤ ·) l) :
    pyMin l = l.headD 0 := by
  match l with
  | [] => rfl
  | a :: t =>
    show t.foldl min a = a
    exact foldl_min_all_ge t a (List.pairwise_cons.mp h).1

theorem foldl_max_sorted (t : List ℚ) (a : ℚ) (h : List.Pairwise (· ≤ ·) (a :: t)) :
    t.foldl max a = (a :: t).getLastD 0 := by
  induction t generalizing a with
  | nil => rfl
  | cons b t ih =>
    have hab : max a b = b :=
      max_eq_right ((List.pairwise_cons.mp h).1 b (List.mem_cons_self b t))
    have hstep : List.foldl max a (b :: t) = List.foldl max (max a b) t := rfl
    have hlast : (a :: b :: t).getLastD 0 = (b :: t).getLastD 0 := by simp
    rw [hstep, hab, hlast]
    exact ih b (List.pairwise_cons.mp h).2

theorem pyMax_sorted (l : List ℚ) (h : List.Pairwise (· ≤ ·) l) :
    pyMax l = l.getLastD 0 := by
  match l with
  | [] => rfl
  | a :: t => exact foldl_max_sorted t a h

theorem getD_mem_dropLast (l : List ℚ) (i : Nat) (h : i + 1 < l.length) :
    l.getD i 0 ∈ l.dropLast := by
  have hta : i < l.dropLast.length := by
    rw [List.length_dropLast]; omega
  have heq : l.dropLast[i] = l[i] := List.getElem_dropLast l i hta
  have hgd : l.getD i 0 = l.dropLast[i] := by
    rw [List.getD_eq_getElem?_getD, List.getElem?_eq_getElem (by omega : i < l.length)]
    simp [heq]
  rw [hgd]
  exact List.getElem_mem hta

theorem cast_list_sum (l : List ℚ) :
    ((l.sum : ℚ) : ℝ) = (l.map (Rat.cast : ℚ → ℝ)).sum := by
  induction l with
  | nil => simp
  | cons a t ih => simp [List.sum_cons, ih]

theorem popVar_cast (rs : List ℚ) :
    ((popVar rs : ℚ) : ℝ) =
      ((rs.map fun (r : ℚ) =>
          ((r : ℝ) - (rs.map (Rat.cast : ℚ → ℝ)).sum / (rs.length : ℝ)) ^ 2).sum) /
        (rs.length : ℝ) := by
  unfold popVar
  rw [Rat.cast_div, cast_list_sum, List.map_map]
  have hfun : ∀ r : ℚ,
      ((Rat.cast : ℚ → ℝ) ∘ fun r => (r - rs.sum / (rs.length : ℚ)) ^ 2) r =
        ((r : ℝ) - (rs.map (Rat.cast : ℚ → ℝ)).sum / (rs.length : ℝ)) ^ 2 := by
    intro r
    simp only [Function.comp_apply]
    push_cast [cast_list_sum]
    ring
  rw [List.map_congr_left fun a _ => hfun a]
  push_cast
  ring

theorem tech_ok (l : List ℚ) (h2 : 2 ≤ l.length)
    (h10 : ¬ (10 ≤ l.length ∧ l.getD (l.length - 10) 0 = 0))
    (h20 : ¬ (20 ≤ l.length ∧ ¬ ∀ x ∈ l.dropLast, x ≠ 0)) :
    calculate_technical_indicators l = .ok
      { sma_20 :=
          if 20 ≤ l.length then some ((l.drop (l.length - 20)).sum / 20) else none
        sma_50 :=
          if 50 ≤ l.length then some ((l.drop (l.length - 50)).sum / 50) else none
        momentum_10 :=
          if 10 ≤ l.length then
            some ((l.getLastD 0 / l.getD (l.length - 10) 0 - 1) * 100)
          else none
        volatility_20d :=
          if 20 ≤ l.length then
            some ((100 : ℝ) * Real.sqrt ((popVar (returnsOf l) : ℚ) : ℝ))
          else none
        support_level :=
          if 20 ≤ l.length then some (pyMin (l.drop (l.length - 20))) else none
        resistance_level :=
          if 20 ≤ l.length then some (pyMax (l.drop (l.length - 20))) else none } := by
  unfold calculate_technical_indicators
  rw [if_neg (by omega), if_neg h10, if_neg h20]

/-- Claim C6 as stated is false: the 20 monotonically increasing prices
0,1,...,19 make the return divisor `price_data[0]` zero, so the code
raises `ZeroDivisionError` and returns the error value with no
support/resistance levels at all. -/
theorem claim_C6_counterexample :
    c6Prices.length = 20 ∧ List.Chain' (· < ·) c6Prices ∧
    calculate_technical_indicators c6Prices =
      .error "Technical indicator calculation error" := by
  refine ⟨by decide, ?_, ?_⟩
  · norm_num [List.chain'_iff_pairwise, List.pairwise_cons, c6Prices]
  · unfold calculate_technical_indicators
    rw [if_neg (by decide), if_neg (by decide), if_pos (by decide)]

/-- Claim C6 amended: fewer than 2 prices yield the insufficient-data
error; and on exactly 20 monotonically increasing prices none of which is
zero (so that no return divisor raises), the support level is the first
price and the resistance level the last. -/
theorem claim_C6_amended :
    (∀ l : List ℚ, l.length < 2 →
        calculate_technical_indicators l = .error "Insufficient price data") ∧
    (∀ l : List ℚ, l.length = 20 → l.Chain' (· ≤ ·) → (∀ x ∈ l.dropLast, x ≠ 0) →
      ∃ ind, calculate_technical_indicators l = .ok ind ∧
        ind.support_level = some (l.headD 0) ∧
        ind.resistance_level = some (l.getLastD 0)) := by
  constructor
  · intro l h
    unfold calculate_technical_indicators
    rw [if_pos h]
  · intro l hlen hch hnz
    have hp : List.Pairwise (· ≤ ·) l := List.chain'_iff_pairwise.mp hch
    have h10 : ¬ (10 ≤ l.length ∧ l.getD (l.length - 10) 0 = 0) := by
      rintro ⟨-, hz⟩
      exact hnz _ (getD_mem_dropLast l (l.length - 10) (by omega)) hz
    have h20 : ¬ (20 ≤ l.length ∧ ¬ ∀ x ∈ l.dropLast, x ≠ 0) := by
      rintro ⟨-, hcon⟩
      exact hcon hnz
    rw [tech_ok l (by omega) h10 h20]
    refine ⟨_, rfl, ?_, ?_⟩
    · show (if 20 ≤ l.length then some (pyMin (l.drop (l.length - 20))) else none) =
        some (l.headD 0)
      rw [hlen]
      norm_num [pyMin_sorted l hp]
    · show (if 20 ≤ l.length then some (pyMax (l.drop (l.length - 20))) else none) =
        some (l.getLastD 0)
      rw [hlen]
      norm_num [pyMax_sorted l hp]

/-- Witness for the amended C6 at the empty list and at prices 1..20. -/
theorem claim_C6_witness :
    (([] : List ℚ).length < 2 ∧
      calculate_technical_indicators ([] : List ℚ) = .error "Insufficient price data") ∧
    (([1, 2, 3, 4, 5, 6, 7, 8, 9, 10, 11, 12, 13, 14, 15, 16, 17, 18, 19, 20] :
          List ℚ).length = 20 ∧
      ∃ ind,
        calculate_technical_indicators
            ([1, 2, 3, 4, 5, 6, 7, 8, 9, 10, 11, 12, 13, 14, 15, 16, 17, 18, 19, 20] :
              List ℚ) = .ok ind ∧
        ind.support_level =
          some (([1, 2, 3, 4, 5, 6, 7, 8, 9, 10, 11, 12, 13, 14, 15, 16, 17, 18, 19, 20] :
            List ℚ).headD 0) ∧
        ind.resistance_level =
          some (([1, 2, 3, 4, 5, 6, 7, 8, 9, 10, 11, 12, 13, 14, 15, 16, 17, 18, 19, 20] :
            List ℚ).getLastD 0)) :=
  ⟨⟨by decide, claim_C6_amended.1 [] (by decide)⟩,
    by decide,
    claim_C6_amended.2
      [1, 2, 3, 4, 5, 6, 7, 8, 9, 10, 11, 12, 13, 14, 15, 16, 17, 18, 19, 20]
      (by decide)
      (by norm_num [List.chain'_iff_pairwise, List.pairwise_cons])
      (by decide)⟩

/-- Claim C1 as stated is false: on 21 prices (1 followed by twenty 2s)
the code computes the volatility from the returns of the whole list,
giving 100·sqrt(19/400) ≠ 0, while the population standard deviation of
the returns over only the trailing 20 samples is 0. -/
theorem claim_C1_counterexample :
    c1Prices.length = 21 ∧ 20 ≤ c1Prices.length ∧
    ∃ ind, calculate_technical_indicators c1Prices = .ok ind ∧
      ind.volatility_20d = some ((100 : ℝ) * Real.sqrt ((19 : ℝ) / 400)) ∧
      specVolatilityTrailing20 c1Prices = 0 ∧
      (100 : ℝ) * Real.sqrt ((19 : ℝ) / 400) ≠ 0 := by
  have h19 : popVar (returnsOf c1Prices) = 19/400 := by
    norm_num [popVar, returnsOf, c1Prices, List.zip_cons_cons, List.zipWith_cons_cons]
  have h0 : popVar (returnsOf (c1Prices.drop (c1Prices.length - 20))) = 0 := by
    norm_num [popVar, returnsOf, c1Prices, List.zip_cons_cons, List.zipWith_cons_cons]
  refine ⟨by decide, by decide, ?_⟩
  rw [tech_ok c1Prices (by decide) (by decide) (by decide)]
  refine ⟨_, rfl, ?_, ?_, ?_⟩
  · show (if 20 ≤ c1Prices.length then
        some ((100 : ℝ) * Real.sqrt ((popVar (returnsOf c1Prices) : ℚ) : ℝ))
      else none) = some ((100 : ℝ) * Real.sqrt ((19 : ℝ) / 400))
    rw [if_pos (by decide : 20 ≤ c1Prices.length), h19]
    norm_num
  · unfold specVolatilityTrailing20
    rw [h0]
    simp
  · have hpos : (0 : ℝ) < 100 * Real.sqrt ((19 : ℝ) / 400) :=
      mul_pos (by norm_num) (Real.sqrt_pos.mpr (by norm_num))
    exact hpos.ne'

/-- Claim C1 amended: for at least 20 samples (with no zero divisor
price), `volatility_20d` is 100 times the population standard deviation of
the one-period simple returns computed over the ENTIRE price list, not
merely its trailing 20 samples. -/
theorem claim_C1_amended (l : List ℚ) (h20 : 20 ≤ l.length)
    (hnz : ∀ x ∈ l.dropLast, x ≠ 0) :
    ∃ ind, calculate_technical_indicators l = .ok ind ∧
      ind.volatility_20d = some (100 * popStdR (returnsOf l)) := by
  have h10 : ¬ (10 ≤ l.length ∧ l.getD (l.length - 10) 0 = 0) := by
    rintro ⟨-, hz⟩
    exact hnz _ (getD_mem_dropLast l (l.length - 10) (by omega)) hz
  have h20' : ¬ (20 ≤ l.length ∧ ¬ ∀ x ∈ l.dropLast, x ≠ 0) := fun h => h.2 hnz
  rw [tech_ok l (by omega) h10 h20']
  refine ⟨_, rfl, ?_⟩
  show (if 20 ≤ l.length then
      some ((100 : ℝ) * Real.sqrt ((popVar (returnsOf l) : ℚ) : ℝ))
    else none) = some (100 * popStdR (returnsOf l))
  rw [if_pos h20]
  unfold popStdR
  rw [popVar_cast]

/-- Witness for the amended C1 at a constant price series of twenty 1s. -/
theorem claim_C1_witness :
    (20 ≤ ([1, 1, 1, 1, 1, 1, 1, 1, 1, 1, 1, 1, 1, 1, 1, 1, 1, 1, 1, 1] :
        List ℚ).length) ∧
    ∃ ind,
      calculate_technical_indicators
          ([1, 1, 1, 1, 1, 1, 1, 1, 1, 1, 1, 1, 1, 1, 1, 1, 1, 1, 1, 1] : List ℚ) =
        .ok ind ∧
      ind.volatility_20d =
        some (100 * popStdR (returnsOf
          ([1, 1, 1, 1, 1, 1, 1, 1, 1, 1, 1, 1, 1, 1, 1, 1, 1, 1, 1, 1] : List ℚ))) :=
  ⟨by decide,
    claim_C1_amended [1, 1, 1, 1, 1, 1, 1, 1, 1, 1, 1, 1, 1, 1, 1, 1, 1, 1, 1, 1]
      (by decide) (by decide)⟩
